import Mathlib

/-!
# Verification of the wmproxy tunnel client, frame codec, control plane and CLI

A shallow embedding of the parts of `tickbh/dianmeng-proxy` that the
specification's claims are about:

* `src/streams/center_client.rs` — the center client: connection setup
  (`inner_connect`), the tunnel serve loop (`inner_serve`) with its biased
  select and frame dispatch, and substream-id allocation (`calc_next_id`).
* `src/prot/data.rs` — the `Data` frame encoder (`ProtData::encode`).
* `src/control/app.rs` — the control-plane HTTP handler (`inner_operate`,
  `do_restart_serve`, `inner_start_server`).
* `src/arg.rs` — the `stop`/`reload` CLI target resolution and
  `kill_process_by_id`.

External collaborators (tokio channels, sockets, TLS, the frame *decoder*
living outside `src/`) are represented by explicit parameters and event
traces; every function below mirrors the control flow of its Rust source.
-/

namespace Wmproxy

/-! ## Mapping configuration

Modelled from the spec: the file defining `MappingConfig` (the mapping
registry entry) is not under `src/`; per the spec a `MappingEntry` is
`{name, domain?, local_addr?, mode ∈ {tcp, http, proxy}, headers}` and a
`proxy`-mode entry has no `local_addr`.  `center_client.rs` accesses the
fields `domain`, `name`, `local_addr` and the predicate `is_proxy()`. -/
structure MappingConfig where
  name : String
  domain : String
  local_addr : Option String
  mode : String
deriving DecidableEq, Repr

/-- Modelled from the spec: `MappingConfig::is_proxy` is not under `src/`;
per the spec `mode ∈ {tcp, http, proxy}` and proxy mode selects the embedded
forward-proxy engine. -/
def MappingConfig.is_proxy (m : MappingConfig) : Bool :=
  m.mode = "proxy"

/-! ## Protocol frames as seen by the client dispatch

`src/streams/center_client.rs` matches on the decoded `ProtFrame`
variants; only the fields the dispatch reads are carried. -/
inductive ProtFrame where
  | create (sock_map : Nat) (domain : Option String)
  | data (sock_map : Nat)
  | close (sock_map : Nat) (reason : String)
  | mapping
  | token
deriving DecidableEq, Repr

/-- Observable actions of the client serve loop (sends on the tunnel sender,
`try_send`s to a substream's channel, spawned tasks). -/
inductive Effect where
  /-- Source `sender.send(ProtFrame::new_close(id))` on the tunnel outbound sender. -/
  | sendClose (id : Nat)
  /-- forward a `Data` frame to the substream's bounded channel (`try_send`). -/
  | trySendData (id : Nat)
  /-- forward a `Close` frame to the substream's bounded channel (`try_send`). -/
  | trySendClose (id : Nat)
  /-- Source `tokio::spawn` of `proxy_server.deal_proxy(stream)` for a proxy-mode mapping. -/
  | spawnProxy (id : Nat)
  /-- Source `tokio::spawn` of the dial-then-bridge task towards `addr`. -/
  | spawnDial (addr : String) (id : Nat)
  /-- Source `TransStream::copy_wait` bridge running after a successful dial. -/
  | bridge (id : Nat)
deriving DecidableEq, Repr

/-- Source `HashMap::insert` on the substream table keyed by sock_map: at most one
entry per id, the new sender replacing any previous one. -/
def mapInsert (map : List Nat) (id : Nat) : List Nat :=
  id :: map.erase id

/-- The mapping lookup loop of the `Create` arm in `inner_serve`
(`src/streams/center_client.rs:212-217`): scan all mappings, keeping the
*last* one whose `domain` or `name` equals the frame's domain. -/
def findMapping (mappings : List MappingConfig) (domain : String) :
    Option MappingConfig :=
  mappings.foldl
    (fun acc m => if m.domain = domain ∨ m.name = domain then some m else acc)
    none

/-- The dial task spawned in the non-proxy `Create` arm
(`src/streams/center_client.rs:255-277`): on a successful
`HealthCheck::connect` it runs the `TransStream` bridge, on failure it sends
`Close{sock_map}` back on the tunnel. -/
def dialTask (dialOk : Bool) (addr : String) (id : Nat) : List Effect :=
  if dialOk then [Effect.bridge id] else [Effect.sendClose id]

/-- One decoded frame handled by the inner dispatch of
`CenterClient::inner_serve` (`src/streams/center_client.rs:209-294`).
Returns the updated substream table and the emitted effects, or `none` when
the arm panics (`ProtFrame::Token(_) => todo!()`). -/
def handleFrame (mappings : List MappingConfig) (map : List Nat) :
    ProtFrame → Option (List Nat × List Effect)
  | ProtFrame.create sock domain =>
    match findMapping mappings (domain.getD "") with
    | none => some (map, [Effect.sendClose sock])
    | some m =>
      if m.is_proxy then
        some (mapInsert map sock, [Effect.spawnProxy sock])
      else
        match m.local_addr with
        | none => some (mapInsert map sock, [])
        | some addr => some (mapInsert map sock, [Effect.spawnDial addr sock])
  | ProtFrame.data sock =>
    if map.contains sock then some (map, [Effect.trySendData sock])
    else some (map, [])
  | ProtFrame.close sock _ =>
    if sock = 0 then some (map, [])
    else if map.contains sock then some (map, [Effect.trySendClose sock])
    else some (map, [])
  | ProtFrame.mapping => some (map, [])
  | ProtFrame.token => none

/-! ## The serve loop of `CenterClient::inner_serve`

`src/streams/center_client.rs:156-311`.  Each iteration of the outer loop
selects one event (`biased`), then the inner loop decodes as many frames as
the read buffer holds.  The transport and the decoder (`Helper::decode_frame`,
defined outside `src/`) are abstracted into an event trace: a read either
yields EOF, an error, or a chunk whose decoding produces a list of frames
possibly followed by a decode error (the `?` on `Helper::decode_frame`). -/

inductive ServeEvent where
  /-- Source `receiver_work.recv()` yielded `(create, sender)`: the id is inserted
  into the substream table and the `Create` frame is queued for writing. -/
  | work (id : Nat)
  /-- Source `receiver.recv()` yielded a frame: it is encoded into the write buffer. -/
  | outbound
  /-- Source `reader.read` returned `Ok(n)` with `n > 0`; decoding the buffer then
  yields `frames`, followed by a decode error when `decodeErr` is true. -/
  | readChunk (frames : List ProtFrame) (decodeErr : Bool)
  /-- Source `reader.read` returned `Ok(0)`: sets `is_closed = true` and breaks. -/
  | readEof
  /-- Source `reader.read` returned `Err(_)`: sets `is_closed = true` and breaks. -/
  | readErr
  /-- Source `writer.write` completed (success or logged error): buffer bookkeeping
  only. -/
  | flushWrite (ok : Bool)
deriving DecidableEq, Repr

/-- The `if is_closed { for v in map { v.1.try_send(Close(v.0)) } }` epilogue
(`src/streams/center_client.rs:305-309`). -/
def closeAll (map : List Nat) : List Effect :=
  map.map Effect.trySendClose

/-- The inner decode loop (`src/streams/center_client.rs:205-300`): handle
each decoded frame in order; `none` when a frame arm panics. -/
def handleFrames (mappings : List MappingConfig) (map : List Nat) :
    List ProtFrame → Option (List Nat × List Effect)
  | [] => some (map, [])
  | f :: fs =>
    match handleFrame mappings map f with
    | none => none
    | some (map', effs) =>
      match handleFrames mappings map' fs with
      | none => none
      | some (map'', effs') => some (map'', effs ++ effs')

/-- How an invocation of `inner_serve` ends, with the effects it emitted. -/
inductive ServeOutcome where
  /-- the trace ran out with the loop still live. -/
  | running (map : List Nat) (effects : List Effect)
  /-- the loop broke with `is_closed = true` (transport EOF or read error)
  and ran the close-all epilogue, then returned `Ok(())`. -/
  | finished (effects : List Effect)
  /-- Source `Helper::decode_frame(&mut read_buf)?` returned an error: the function
  returns `Err` at once, skipping the close-all epilogue. -/
  | errored (effects : List Effect)
  /-- a dispatch arm panicked (`todo!()`). -/
  | panicked
deriving DecidableEq, Repr

/-- The outer loop of `CenterClient::inner_serve` over an event trace.
`map` is the live substream table, `effs` the effects emitted so far. -/
def serveLoop (mappings : List MappingConfig) (map : List Nat)
    (effs : List Effect) : List ServeEvent → ServeOutcome
  | [] => ServeOutcome.running map effs
  | e :: es =>
    match e with
    | ServeEvent.work id => serveLoop mappings (mapInsert map id) effs es
    | ServeEvent.outbound => serveLoop mappings map effs es
    | ServeEvent.flushWrite _ => serveLoop mappings map effs es
    | ServeEvent.readEof => ServeOutcome.finished (effs ++ closeAll map)
    | ServeEvent.readErr => ServeOutcome.finished (effs ++ closeAll map)
    | ServeEvent.readChunk frames decodeErr =>
      match handleFrames mappings map frames with
      | none => ServeOutcome.panicked
      | some (map', effs') =>
        if decodeErr then ServeOutcome.errored (effs ++ effs')
        else serveLoop mappings map' (effs ++ effs') es

/-! ## The biased select

`src/streams/center_client.rs:157-203`: `tokio::select! { biased; ... }`
evaluates its branches in source order and takes the first one that is
ready; the flush branch is additionally guarded by
`write_buf.has_remaining()`. -/

inductive Branch where
  /-- Source `receiver_work.recv()` — the internal `Create` queue. -/
  | work
  /-- Source `receiver.recv()` — the substream outbound queue. -/
  | outbound
  /-- Source `reader.read(&mut vec)` — transport read. -/
  | transportRead
  /-- Source `writer.write(write_buf.chunk())` — write-buffer flush. -/
  | flushWrite
deriving DecidableEq, Repr

/-- The branch chosen by the biased select given which branches are ready
(`workReady`, `outboundReady`, `readReady`, `writeReady`) and whether the
write buffer is non-empty (`hasData`, the guard of the flush branch).
The source order is: work, outbound, transport read, flush. -/
def biasedPick (workReady outboundReady readReady writeReady hasData : Bool) :
    Option Branch :=
  if workReady then some Branch.work
  else if outboundReady then some Branch.outbound
  else if readReady then some Branch.transportRead
  else if writeReady && hasData then some Branch.flushWrite
  else none

/-- Spec-side definition: the first ready branch of a given priority order
(used to compare the source's order with the order the claim states). -/
def firstReady (ready : Branch → Bool) (order : List Branch) : Option Branch :=
  order.find? ready

/-- Readiness function assembled from the five selector flags; the flush
branch is ready only when the transport is writable and the buffer holds
data (the source guard). -/
def readiness (workReady outboundReady readReady writeReady hasData : Bool) :
    Branch → Bool
  | Branch.work => workReady
  | Branch.outbound => outboundReady
  | Branch.transportRead => readReady
  | Branch.flushWrite => writeReady && hasData

/-! ## Substream-id allocation

`src/streams/center_client.rs:34-37` and `368-373`: the process-wide
`NEXT_ID: Mutex<u32>` starts at 1; `calc_next_id` reads the current value,
advances the counter by `wrapping_add(2)` and combines the raw id with the
configured `server_id` via `Helper::calc_sock_map`. -/

def U32_MOD : Nat := 2 ^ 32

/-- Source `lazy_static! { static ref NEXT_ID: Mutex<u32> = Mutex::new(1); }` -/
def NEXT_ID_INIT : Nat := 1

/-- Modelled from the spec: `Helper::calc_sock_map` is not under `src/`;
per the spec "an upper `server_id` byte distinguishes tunnels", i.e. the
64-bit sock_map places `server_id` above the 32-bit raw id. -/
def calc_sock_map (server_id id : Nat) : Nat :=
  server_id * U32_MOD + id % U32_MOD

/-- Source `CenterClient::calc_next_id` as a function of the counter state: returns
the allocated sock_map and the new counter value.  Note it takes no view of
the live substream table. -/
def calc_next_id (server_id next : Nat) : Nat × Nat :=
  (calc_sock_map server_id next, (next + 2) % U32_MOD)

/-- The raw counter value before the `k`-th allocation, starting from the
initial value 1. -/
def nthNext (k : Nat) : Nat :=
  (fun n => (n + 2) % U32_MOD)^[k] NEXT_ID_INIT

/-! ## The `Data` frame encoder

`src/prot/data.rs:29-37` together with the frame header.  The header type
`ProtFrameHeader` is defined outside `src/`. -/

/-- Maximum value of the 24-bit length field. -/
def u24Max : Nat := 2 ^ 24 - 1

structure ProtFrameHeader where
  kind : Nat
  flag : Nat
  length : Nat
  sock_map : Nat
deriving DecidableEq, Repr

/-- Big-endian bytes of a 24-bit integer. -/
def u24be (n : Nat) : List Nat :=
  [n / 65536 % 256, n / 256 % 256, n % 256]

/-- Big-endian bytes of a 32-bit integer. -/
def u32be (n : Nat) : List Nat :=
  [n / 16777216 % 256, n / 65536 % 256, n / 256 % 256, n % 256]

/-- Modelled from the spec: `ProtFrameHeader::encode` is not under `src/`.
Per the spec the header is a fixed 8 bytes holding `kind:u8`, `flag:u8`,
`length:u24` and `sock_map:u32`, all big-endian (kind and flag sharing one
byte so that the total is the spec's 8), and encoding MUST fail if the
length exceeds `2^24 - 1`. -/
def ProtFrameHeader.encode (h : ProtFrameHeader) : Except String (List Nat) :=
  if h.length > u24Max then Except.error "payload exceeds max frame length"
  else Except.ok (u24be h.length ++ [h.kind % 16 * 16 + h.flag % 16] ++ u32be h.sock_map)

/-- The decoded 24-bit length field of an encoded header (first three
bytes, big-endian). -/
def headerLengthField (bytes : List Nat) : Nat :=
  bytes.headD 0 * 65536 + (bytes.drop 1).headD 0 * 256 + (bytes.drop 2).headD 0

/-- Source `ProtKind::Data` discriminant byte. -/
def kindData : Nat := 1

/-- Source `ProtData` (`src/prot/data.rs:12-15`), payload as raw bytes. -/
structure ProtData where
  sock_map : Nat
  data : List Nat
deriving DecidableEq, Repr

/-- Source `ProtData::encode` (`src/prot/data.rs:29-37`): it sets
`head.length = self.data.remaining() as u32` — note the `as u32`
truncation — encodes the header, serializes the payload, and returns the
total number of bytes written.  The result is the written buffer contents
together with that size. -/
def ProtData.encode (d : ProtData) : Except String (List Nat × Nat) :=
  match ProtFrameHeader.encode
      { kind := kindData, flag := 0,
        length := d.data.length % U32_MOD, sock_map := d.sock_map } with
  | Except.error e => Except.error e
  | Except.ok hbytes => Except.ok (hbytes ++ d.data, hbytes.length + d.data.length)

/-! ## The control plane

`src/control/app.rs`.  `ControlApp`'s fields relevant to request handling:
the generation refcount `count` and whether a `server_sender_close` is
installed.  Re-reading the configuration (`arg::parse_env`) is an external
effect represented by its result. -/

structure ControlState where
  count : Int
  hasServerSender : Bool
deriving DecidableEq, Repr

/-- Observable actions of the control handler. -/
inductive CtlEffect where
  /-- Source `tokio::spawn` of the new generation's serve task
  (`inner_start_server`). -/
  | spawnGeneration
  /-- Source `sender.send(())` on `server_sender_close` (the `/stop` signal). -/
  | notifyServerClose
deriving DecidableEq, Repr

/-- Source `ControlApp::inner_start_server` (`src/control/app.rs:80-97`): takes the
old close sender, increments the refcount, spawns the generation task and
installs a fresh `server_sender_close`. -/
def inner_start_server (st : ControlState) : ControlState × List CtlEffect :=
  ({ count := st.count + 1, hasServerSender := true }, [CtlEffect.spawnGeneration])

/-- Source `ControlApp::do_restart_serve` (`src/control/app.rs:73-78`):
`arg::parse_env()?` re-reads the configuration; on error the `?` returns at
once leaving the state untouched, otherwise `inner_start_server` runs. -/
def do_restart_serve (parseResult : Except String Unit) (st : ControlState) :
    ControlState × List CtlEffect × Except String Unit :=
  match parseResult with
  | Except.error e => (st, [], Except.error e)
  | Except.ok _ =>
    let (st', effs) := inner_start_server st
    (st', effs, Except.ok ())

structure HttpResponse where
  status : Nat
  body : String
deriving DecidableEq, Repr

/-- Source `ControlApp::inner_operate` (`src/control/app.rs:99-145`) as a function
of the request path, the configuration re-read result (for `/reload`) and
the pretty-printed configuration (for `/now`, `none` when serialization
fails).  Returns the response, the new control state and the effects.
The `/reload` arm discards the result of `do_restart_serve`
(`let _ = value.do_restart_serve().await;`) and unconditionally answers
with the fixed success body. -/
def inner_operate (path : String) (parseResult : Except String Unit)
    (nowJson : Option String) (st : ControlState) :
    HttpResponse × ControlState × List CtlEffect :=
  if path = "/reload" then
    let (st', effs, _res) := do_restart_serve parseResult st
    (⟨200, "重新加载配置成功"⟩, st', effs)
  else if path = "/stop" then
    (⟨200, "关闭进程成功"⟩, st,
      if st.hasServerSender then [CtlEffect.notifyServerClose] else [])
  else if path = "/now" then
    match nowJson with
    | some s => (⟨200, s⟩, st, [])
    | none => (⟨503, "请选择您要的操作"⟩, st, [])
  else
    (⟨503, "请选择您要的操作"⟩, st, [])

/-! ## CLI `stop`/`reload` target resolution

`src/arg.rs:330-346` and the `Command::Stop` / `Command::Reload` arms of
`parse_env` (`src/arg.rs:426-484`).  Reading the configuration file is an
external effect represented by `loadedControl`, the `control` address the
loaded configuration carries; the platform `kill` outcome by `killResult`. -/

/-- What the CLI subcommand does after resolving its target. -/
inductive CliAction where
  /-- issue `GET <url'>` where `url'` is the base url with the given path. -/
  | sendHttp (url : String) (path : String)
  /-- Source `exit(kill_process_by_id(content).unwrap_or(0))`. -/
  | exitWith (code : Int)
  /-- print the message and `exit(0)` without acting. -/
  | refuse (msg : String)
deriving DecidableEq, Repr

/-- Source `kill_process_by_id` (`src/arg.rs:330-346`): an empty id short-circuits
to `Some(-1)`; otherwise the platform kill command's status code
(`killResult`) is returned. -/
def kill_process_by_id (killResult : Option Int) (id : String) : Option Int :=
  if id = "" then some (-1) else killResult

/-- The `Command::Stop` arm (`src/arg.rs:426-456`): `--config` wins, then
`--url`, else the PID file is read and the process exits with the kill
status. -/
def resolveStop (config : Option String) (loadedControl : String → String)
    (url : Option String) (pidContent : String) (killResult : Option Int) :
    CliAction :=
  match config with
  | some c => CliAction.sendHttp ("http://" ++ loadedControl c) "/stop"
  | none =>
    match url with
    | some u => CliAction.sendHttp u "/stop"
    | none =>
      CliAction.exitWith ((kill_process_by_id killResult pidContent).getD 0)

/-- The `Command::Reload` arm (`src/arg.rs:458-484`): `--config` wins, then
`--url`; with neither it prints `必须传入参数pidfile或者config或者url之一`
and exits 0 without consulting the PID file. -/
def resolveReload (config : Option String) (loadedControl : String → String)
    (url : Option String) : CliAction :=
  match config with
  | some c => CliAction.sendHttp ("http://" ++ loadedControl c) "/reload"
  | none =>
    match url with
    | some u => CliAction.sendHttp u "/reload"
    | none => CliAction.refuse "必须传入参数pidfile或者config或者url之一"

/-! ## Connection setup

`CenterClient::inner_connect` (`src/streams/center_client.rs:95-114`).
`HealthCheck::connect` and the TLS handshake are external effects
represented by their results; DNS-name validity
(`rustls::pki_types::ServerName::try_from`) by the predicate `validDns`. -/

inductive ConnError where
  | ioError (msg : String)
  /-- Source `io::Error::new(io::ErrorKind::InvalidInput, "invalid dnsname")`. -/
  | invalidInput (msg : String)
deriving DecidableEq, Repr

/-- The literal fallback SNI name
(`domain.unwrap_or("soft.wm-proxy.com".to_string())`). -/
def default_tls_domain : String := "soft.wm-proxy.com"

/-- Source `CenterClient::inner_connect`: with TLS configured it dials TCP, checks
the (configured or default) server name, then performs the TLS handshake;
without TLS it dials plaintext.  The result mirrors the source's
`(Option<TcpStream>, Option<TlsStream>)` as
`(plaintext established, tls established)`. -/
def inner_connect (hasTlsClient : Bool) (domain : Option String)
    (validDns : String → Bool) (tcpConnect : Except String Unit)
    (tlsHandshake : Except String Unit) : Except ConnError (Bool × Bool) :=
  if hasTlsClient then
    match tcpConnect with
    | Except.error e => Except.error (ConnError.ioError e)
    | Except.ok _ =>
      let d := domain.getD default_tls_domain
      if validDns d then
        match tlsHandshake with
        | Except.error e => Except.error (ConnError.ioError e)
        | Except.ok _ => Except.ok (false, true)
      else Except.error (ConnError.invalidInput "invalid dnsname")
  else
    match tcpConnect with
    | Except.error e => Except.error (ConnError.ioError e)
    | Except.ok _ => Except.ok (true, false)

/-! ## Helper lemmas -/

/-- Inserting into the substream table never removes other live ids. -/
lemma mem_mapInsert {id sock : Nat} {map : List Nat} (h : id ∈ map) :
    id ∈ mapInsert map sock := by
  by_cases hs : id = sock
  · subst hs; exact List.mem_cons_self _ _
  · exact List.mem_cons_of_mem _ ((List.mem_erase_of_ne hs).2 h)

/-- Frame dispatch never removes an id from the substream table. -/
lemma handleFrame_mono {mappings : List MappingConfig} {map map' : List Nat}
    {f : ProtFrame} {effs : List Effect}
    (h : handleFrame mappings map f = some (map', effs))
    {id : Nat} (hm : id ∈ map) : id ∈ map' := by
  cases f with
  | create sock domain =>
    simp only [handleFrame] at h
    cases hf : findMapping mappings (domain.getD "") with
    | none => rw [hf] at h; cases h; exact hm
    | some m =>
      rw [hf] at h
      dsimp only at h
      cases hl : m.local_addr with
      | none =>
        rw [hl] at h
        split at h <;> (cases h; exact mem_mapInsert hm)
      | some a =>
        rw [hl] at h
        split at h <;> (cases h; exact mem_mapInsert hm)
  | data sock =>
    simp only [handleFrame] at h
    split at h <;> (cases h; exact hm)
  | close sock reason =>
    simp only [handleFrame] at h
    split at h
    · cases h; exact hm
    · split at h <;> (cases h; exact hm)
  | mapping =>
    simp only [handleFrame] at h; cases h; exact hm
  | token =>
    exact Option.noConfusion h

/-- The inner decode loop never removes an id from the substream table. -/
lemma handleFrames_mono {mappings : List MappingConfig} :
    ∀ {fs : List ProtFrame} {map map' : List Nat} {effs : List Effect},
      handleFrames mappings map fs = some (map', effs) →
      ∀ {id : Nat}, id ∈ map → id ∈ map'
  | [], map, map', effs, h, id, hm => by
    simp only [handleFrames] at h; cases h; exact hm
  | f :: fs, map, map', effs, h, id, hm => by
    simp only [handleFrames] at h
    cases h1 : handleFrame mappings map f with
    | none => rw [h1] at h; exact Option.noConfusion h
    | some p =>
      obtain ⟨m1, e1⟩ := p
      rw [h1] at h
      dsimp only at h
      cases h2 : handleFrames mappings m1 fs with
      | none => rw [h2] at h; exact Option.noConfusion h
      | some q =>
        obtain ⟨m2, e2⟩ := q
        rw [h2] at h
        dsimp only at h
        cases h
        exact handleFrames_mono h2 (handleFrame_mono h1 hm)

/-- Successful encoding of a `Data` frame, spelled out: header bytes
followed by the payload, total size 8 plus the payload length. -/
lemma encode_ok_of_fits (sock : Nat) (payload : List Nat)
    (h : payload.length % U32_MOD ≤ u24Max) :
    ProtData.encode ⟨sock, payload⟩
      = Except.ok ((u24be (payload.length % U32_MOD)
          ++ [kindData % 16 * 16 + 0 % 16] ++ u32be sock) ++ payload,
          8 + payload.length) := by
  simp only [ProtData.encode, ProtFrameHeader.encode, if_neg (not_lt.2 h)]
  have hlen8 : (u24be (payload.length % U32_MOD)
      ++ [kindData % 16 * 16 + 0 % 16] ++ u32be sock).length = 8 := by
    simp [u24be, u32be]
  rw [hlen8]

/-- Decoding the three length bytes of an encoded header recovers the
length, as long as it fits in 24 bits. -/
lemma headerLengthField_u24be (n : Nat) (rest : List Nat) (h : n ≤ u24Max) :
    headerLengthField (u24be n ++ rest) = n := by
  simp only [u24be, headerLengthField, List.cons_append, List.headD_cons,
    List.drop_succ_cons, List.drop_zero]
  simp only [u24Max] at h
  omega

/-- Unfolding of one allocator step. -/
lemma nthNext_succ (k : Nat) : nthNext (k + 1) = (nthNext k + 2) % U32_MOD := by
  simp only [nthNext, Function.iterate_succ_apply']

/-- Two divides the 32-bit modulus. -/
lemma two_dvd_u32mod : (2 : Nat) ∣ U32_MOD :=
  ⟨2 ^ 31, by norm_num [U32_MOD]⟩

/-- The raw id counter stays odd: it starts at 1 and advances by 2 modulo
an even modulus. -/
lemma nthNext_odd (k : Nat) : nthNext k % 2 = 1 := by
  induction k with
  | zero => rfl
  | succ n ih =>
    rw [nthNext_succ, Nat.mod_mod_of_dvd _ two_dvd_u32mod, Nat.add_mod_right]
    exact ih

/-! ## Claim theorems -/

/-- C1 (amended): every GET to `/reload` on the control plane answers
HTTP 200 `重新加载配置成功` whether or not re-reading the configuration
succeeded — the handler discards the restart result — and on a parse
failure the control state is unchanged (no new generation is spawned, the
old one keeps running), while on success a generation is spawned and the
refcount incremented. -/
theorem reload_swallows_parse_error (st : ControlState)
    (parseResult : Except String Unit) :
    (inner_operate "/reload" parseResult none st).1
        = { status := 200, body := "重新加载配置成功" }
  ∧ (∀ e, parseResult = Except.error e →
      (inner_operate "/reload" parseResult none st).2 = (st, []))
  ∧ (parseResult = Except.ok () →
      (inner_operate "/reload" parseResult none st).2
        = ({ count := st.count + 1, hasServerSender := true },
           [CtlEffect.spawnGeneration])) := by
  refine ⟨?_, ?_, ?_⟩
  · cases parseResult <;> rfl
  · intro e he; subst he; rfl
  · intro he; subst he; rfl

/-- Witness for C1 at a concrete failing parse result and control state. -/
theorem reload_swallows_parse_error_witness :
    (Except.error "parse yaml error" : Except String Unit)
        = Except.error "parse yaml error"
      ∧ (inner_operate "/reload" (Except.error "parse yaml error") none
            ⟨1, true⟩).1 = { status := 200, body := "重新加载配置成功" }
      ∧ (inner_operate "/reload" (Except.error "parse yaml error") none
            ⟨1, true⟩).2 = (⟨1, true⟩, []) :=
  ⟨rfl, (reload_swallows_parse_error ⟨1, true⟩ _).1,
   (reload_swallows_parse_error ⟨1, true⟩ _).2.1 "parse yaml error" rfl⟩

/-- C1 counterexample: with a failing configuration re-read the `/reload`
handler still answers status 200, not the 500 the claim requires. -/
theorem reload_parse_failure_returns_200_not_500 :
    (inner_operate "/reload" (Except.error "parse yaml error") none
        ⟨1, true⟩).1.status = 200
      ∧ (inner_operate "/reload" (Except.error "parse yaml error") none
          ⟨1, true⟩).1.status ≠ 500 := by
  decide

/-- C2: an inbound `Mapping` frame is ignored by the client dispatch, but
an inbound `Token` frame hits the `todo!()` arm and panics the serve task
(modelled as `none`), contradicting the claim that both are ignored. -/
theorem token_inbound_panics :
    handleFrame [] [] ProtFrame.mapping = some ([], [])
      ∧ handleFrame [] [] ProtFrame.token = none := by
  decide

/-- C3 (amended): raw substream ids allocated by the client are always odd
(the process-wide counter starts at 1 and advances by 2 modulo 2^32, and
the combined sock_map keeps the raw id parity), and successive counter
values satisfy next = (previous + 2) mod 2^32.  The allocator does not
skip ids present in the live substream table — it never consults it. -/
theorem alloc_parity_and_step (sid k : Nat) :
    nthNext k % 2 = 1
  ∧ (calc_next_id sid (nthNext k)).2 = nthNext (k + 1)
  ∧ (calc_next_id sid (nthNext k)).2 = (nthNext k + 2) % U32_MOD
  ∧ (calc_next_id sid (nthNext k)).1 % 2 = 1 := by
  refine ⟨nthNext_odd k, by simp [calc_next_id, nthNext_succ],
    by simp [calc_next_id], ?_⟩
  simp only [calc_next_id, calc_sock_map]
  have ha : sid * U32_MOD % 2 = 0 := by
    have hm : U32_MOD % 2 = 0 := by norm_num [U32_MOD]
    rw [Nat.mul_mod, hm, Nat.mul_zero, Nat.zero_mod]
  have hb : nthNext k % U32_MOD % 2 = 1 := by
    rw [Nat.mod_mod_of_dvd _ two_dvd_u32mod]
    exact nthNext_odd k
  omega

/-- C3 counterexample: the allocator output depends only on the counter;
for a live table holding the very sock_map the counter will produce (as
after a 2^32 wrap of the counter), the allocated id is already live. -/
theorem alloc_returns_id_present_in_live_map :
    (calc_next_id 0 1).1 ∈ mapInsert [] (calc_sock_map 0 1)
      ∧ (calc_next_id 0 1).2 = 3 := by
  decide

/-- C4 (amended): when the serve loop of `inner_serve` ends through
transport EOF or a transport read error, every id in the substream table
receives a local `Close` via the close-all epilogue; an undecodable frame
instead makes the function return an error without the epilogue. -/
theorem tunnel_end_closes_all_substreams (mappings : List MappingConfig)
    (events : List ServeEvent) :
    ∀ (map : List Nat) (effs effs' : List Effect),
      serveLoop mappings map effs events = ServeOutcome.finished effs' →
      ∀ id ∈ map, Effect.trySendClose id ∈ effs' := by
  induction events with
  | nil =>
    intro map effs effs' h
    simp only [serveLoop] at h
    exact ServeOutcome.noConfusion h
  | cons e es ih =>
    intro map effs effs' h id hid
    cases e with
    | work i =>
      simp only [serveLoop] at h
      exact ih _ _ _ h id (mem_mapInsert hid)
    | outbound =>
      simp only [serveLoop] at h
      exact ih _ _ _ h id hid
    | flushWrite ok =>
      simp only [serveLoop] at h
      exact ih _ _ _ h id hid
    | readEof =>
      simp only [serveLoop] at h
      cases h
      exact List.mem_append_right _
        (by simp only [closeAll]; exact List.mem_map_of_mem _ hid)
    | readErr =>
      simp only [serveLoop] at h
      cases h
      exact List.mem_append_right _
        (by simp only [closeAll]; exact List.mem_map_of_mem _ hid)
    | readChunk frames derr =>
      simp only [serveLoop] at h
      cases hh : handleFrames mappings map frames with
      | none => rw [hh] at h; exact ServeOutcome.noConfusion h
      | some p =>
        obtain ⟨map2, effs2⟩ := p
        rw [hh] at h
        dsimp only at h
        split at h
        · exact ServeOutcome.noConfusion h
        · exact ih _ _ _ h id (handleFrames_mono hh hid)

/-- Witness for C4 at a concrete one-entry table ended by EOF. -/
theorem tunnel_end_closes_all_substreams_witness :
    serveLoop [] [5] [] [ServeEvent.readEof]
        = ServeOutcome.finished [Effect.trySendClose 5]
      ∧ Effect.trySendClose 5 ∈ [Effect.trySendClose 5] :=
  ⟨rfl, tunnel_end_closes_all_substreams [] [ServeEvent.readEof] [5] []
    [Effect.trySendClose 5] rfl 5 (by decide)⟩

/-- C4 counterexample: a decode error ends the serve loop through the `?`
early return; the live substream 5 is left without any local `Close`. -/
theorem decode_error_skips_close_all :
    serveLoop [] [5] [] [ServeEvent.readChunk [] true]
        = ServeOutcome.errored []
      ∧ Effect.trySendClose 5 ∉ ([] : List Effect) := by
  decide

/-- C5 (amended): the biased select of the serve loop picks the first
ready branch in the source order work, substream outbound, transport
read, write-buffer flush — i.e. the transport read comes before the
flush, not after it. -/
theorem biased_select_first_ready_in_source_order :
    ∀ w o r wr d : Bool,
      biasedPick w o r wr d
        = firstReady (readiness w o r wr d)
            [Branch.work, Branch.outbound, Branch.transportRead,
             Branch.flushWrite] := by
  decide

/-- C5 counterexample: with both the transport readable and the write
buffer flushable, the source select picks the read, whereas the claimed
order (flush before read) would pick the flush. -/
theorem read_selected_before_flush :
    biasedPick false false true true true = some Branch.transportRead
      ∧ firstReady (readiness false false true true true)
          [Branch.work, Branch.outbound, Branch.flushWrite,
           Branch.transportRead] = some Branch.flushWrite
      ∧ biasedPick false false true true true
          ≠ firstReady (readiness false false true true true)
              [Branch.work, Branch.outbound, Branch.flushWrite,
               Branch.transportRead] := by
  decide

/-- C6 (amended): a `Create` with no matching mapping is answered with
`Close{id}` and the tunnel stays up; a proxy-mode match hands the
substream to the forward-proxy engine; a non-proxy match with a
`local_addr` spawns the dial task, whose failure sends `Close{id}` and
whose success runs the bridge; but a non-proxy match without a
`local_addr` registers the substream and sends nothing back. -/
theorem create_frame_routing (mappings : List MappingConfig)
    (map : List Nat) (sock : Nat) (dom : Option String) :
    (findMapping mappings (dom.getD "") = none →
      handleFrame mappings map (ProtFrame.create sock dom)
        = some (map, [Effect.sendClose sock]))
  ∧ (∀ m, findMapping mappings (dom.getD "") = some m →
      m.is_proxy = true →
      handleFrame mappings map (ProtFrame.create sock dom)
        = some (mapInsert map sock, [Effect.spawnProxy sock]))
  ∧ (∀ m, findMapping mappings (dom.getD "") = some m →
      m.is_proxy = false → m.local_addr = none →
      handleFrame mappings map (ProtFrame.create sock dom)
        = some (mapInsert map sock, []))
  ∧ (∀ m a, findMapping mappings (dom.getD "") = some m →
      m.is_proxy = false → m.local_addr = some a →
      handleFrame mappings map (ProtFrame.create sock dom)
        = some (mapInsert map sock, [Effect.spawnDial a sock]))
  ∧ (∀ a id, dialTask false a id = [Effect.sendClose id])
  ∧ (∀ a id, dialTask true a id = [Effect.bridge id]) := by
  refine ⟨?_, ?_, ?_, ?_, fun a id => rfl, fun a id => rfl⟩
  · intro h; simp only [handleFrame, h]
  · intro m h hp; simp only [handleFrame, h]; simp [hp]
  · intro m h hp hl; simp only [handleFrame, h]; simp [hp, hl]
  · intro m a h hp hl; simp only [handleFrame, h]; simp [hp, hl]

/-- Witness for C6 at a concrete tcp mapping matched by name. -/
theorem create_frame_routing_witness :
    findMapping [MappingConfig.mk "web" "w.com" (some "127.0.0.1:8080") "tcp"]
        "web" = some (MappingConfig.mk "web" "w.com" (some "127.0.0.1:8080") "tcp")
      ∧ handleFrame [MappingConfig.mk "web" "w.com" (some "127.0.0.1:8080") "tcp"]
          [] (ProtFrame.create 4 (some "web"))
        = some ([4], [Effect.spawnDial "127.0.0.1:8080" 4]) :=
  ⟨by decide,
   (create_frame_routing
      [MappingConfig.mk "web" "w.com" (some "127.0.0.1:8080") "tcp"]
      [] 4 (some "web")).2.2.2.1
     (MappingConfig.mk "web" "w.com" (some "127.0.0.1:8080") "tcp")
     "127.0.0.1:8080" (by decide) (by decide) rfl⟩

/-- C6 counterexample: a matched non-proxy mapping without a `local_addr`
establishes no bridge and sends no `Close{id}` back, contradicting the
claim that every non-proxy case without a bridge replies `Close{id}`. -/
theorem create_without_local_addr_sends_no_close :
    handleFrame [MappingConfig.mk "x" "" none "tcp"] []
        (ProtFrame.create 9 (some "x"))
      = some ([9], [])
    ∧ Effect.sendClose 9 ∉ ([] : List Effect) := by
  decide

/-- C7: a `Data` frame, or a `Close` frame with a non-zero sock_map, whose
sock_map is absent from the live substream table is dropped silently: the
table is unchanged, no effect is emitted and the dispatch does not fail. -/
theorem unknown_substream_frames_dropped (mappings : List MappingConfig)
    (map : List Nat) (sock : Nat) (reason : String)
    (habs : map.contains sock = false) :
    handleFrame mappings map (ProtFrame.data sock) = some (map, [])
  ∧ (sock ≠ 0 →
      handleFrame mappings map (ProtFrame.close sock reason)
        = some (map, [])) := by
  have hmem : sock ∉ map := by simpa using habs
  constructor
  · simp [handleFrame, hmem]
  · intro h0; simp [handleFrame, hmem, h0]

/-- Witness for C7 at a concrete unknown sock_map. -/
theorem unknown_substream_frames_dropped_witness :
    ([] : List Nat).contains 5 = false
      ∧ (5 : Nat) ≠ 0
      ∧ handleFrame [] [] (ProtFrame.data 5) = some ([], [])
      ∧ handleFrame [] [] (ProtFrame.close 5 "x") = some ([], []) :=
  ⟨rfl, by decide,
   (unknown_substream_frames_dropped [] [] 5 "x" rfl).1,
   (unknown_substream_frames_dropped [] [] 5 "x" rfl).2 (by decide)⟩

/-- C8 (amended): `ProtData` encoding writes the 8-byte header followed by
the payload, with the 24-bit header length field equal to the payload byte
count truncated to 32 bits (the `as u32` cast), returns the total number
of bytes written, and fails exactly when that truncated count exceeds
2^24 - 1. -/
theorem data_encode_length_semantics (sock : Nat) (payload : List Nat) :
    (payload.length % U32_MOD ≤ u24Max →
      ∃ hbytes : List Nat,
        ProtData.encode ⟨sock, payload⟩
            = Except.ok (hbytes ++ payload, 8 + payload.length)
        ∧ hbytes.length = 8
        ∧ headerLengthField hbytes = payload.length % U32_MOD)
  ∧ (u24Max < payload.length % U32_MOD →
      ProtData.encode ⟨sock, payload⟩
        = Except.error "payload exceeds max frame length") := by
  constructor
  · intro h
    refine ⟨u24be (payload.length % U32_MOD)
        ++ [kindData % 16 * 16 + 0 % 16] ++ u32be sock,
      encode_ok_of_fits sock payload h, by simp [u24be, u32be], ?_⟩
    rw [List.append_assoc]
    exact headerLengthField_u24be _ _ h
  · intro h
    simp only [ProtData.encode, ProtFrameHeader.encode, if_pos h]

/-- Witness for C8 at the maximal legal payload of 2^24 - 1 bytes. -/
theorem data_encode_length_semantics_witness :
    (List.replicate u24Max (0 : Nat)).length % U32_MOD ≤ u24Max
      ∧ (∃ hbytes : List Nat,
          ProtData.encode ⟨7, List.replicate u24Max 0⟩
              = Except.ok (hbytes ++ List.replicate u24Max 0,
                  8 + (List.replicate u24Max (0 : Nat)).length)
          ∧ hbytes.length = 8
          ∧ headerLengthField hbytes
              = (List.replicate u24Max (0 : Nat)).length % U32_MOD) :=
  ⟨by rw [List.length_replicate]; norm_num [u24Max, U32_MOD],
   (data_encode_length_semantics 7 (List.replicate u24Max 0)).1
     (by rw [List.length_replicate]; norm_num [u24Max, U32_MOD])⟩

/-- C8 counterexample: a payload of 2^32 bytes exceeds 2^24 - 1, yet the
`as u32` truncation makes the length field 0 and encoding succeeds,
contradicting the claim that encoding fails whenever the payload exceeds
2^24 - 1 bytes. -/
theorem data_encode_accepts_oversized_payload :
    u24Max < (List.replicate (2 ^ 32) (0 : Nat)).length
      ∧ ProtData.encode ⟨0, List.replicate (2 ^ 32) 0⟩
          = Except.ok ((u24be 0 ++ [16] ++ u32be 0)
              ++ List.replicate (2 ^ 32) 0, 8 + 2 ^ 32) := by
  constructor
  · rw [List.length_replicate]; norm_num [u24Max]
  · have hlen : (List.replicate (2 ^ 32) (0 : Nat)).length % U32_MOD = 0 := by
      rw [List.length_replicate]; norm_num [U32_MOD]
    have hfit : (List.replicate (2 ^ 32) (0 : Nat)).length % U32_MOD ≤ u24Max := by
      rw [hlen]; norm_num [u24Max]
    rw [encode_ok_of_fits 0 (List.replicate (2 ^ 32) 0) hfit, hlen,
      List.length_replicate]
    norm_num [kindData]

/-- C9 (amended): `stop` with neither `--config` nor `--url` falls back to
the PID file and exits with the platform kill status (`-1` when the file
is empty, the kill status otherwise, defaulting to 0); `reload` with
neither flag does not fall back to the PID file — it prints an error and
exits without acting. -/
theorem stop_falls_back_to_pid_reload_refuses (f : String → String)
    (pid : String) (k : Option Int) :
    resolveStop none f none pid k
        = CliAction.exitWith ((kill_process_by_id k pid).getD 0)
  ∧ (pid = "" → resolveStop none f none pid k = CliAction.exitWith (-1))
  ∧ resolveReload none f none
      = CliAction.refuse "必须传入参数pidfile或者config或者url之一" := by
  refine ⟨rfl, ?_, rfl⟩
  intro hp; subst hp; rfl

/-- Witness for C9 at an empty PID file. -/
theorem stop_falls_back_to_pid_reload_refuses_witness :
    ("" : String) = ""
      ∧ resolveStop none (fun s => s) none "" none = CliAction.exitWith (-1)
      ∧ resolveReload none (fun s => s) none
          = CliAction.refuse "必须传入参数pidfile或者config或者url之一" :=
  ⟨rfl, (stop_falls_back_to_pid_reload_refuses (fun s => s) "" none).2.1 rfl,
   (stop_falls_back_to_pid_reload_refuses (fun s => s) "" none).2.2⟩

/-- C9 counterexample: with no flags, `reload` refuses to act while `stop`
kills by PID — the claim that reload likewise resolves its target from the
PID file is false. -/
theorem reload_without_flags_refuses :
    resolveReload none (fun s => s) none
        = CliAction.refuse "必须传入参数pidfile或者config或者url之一"
      ∧ resolveStop none (fun s => s) none "123" (some 0)
          = CliAction.exitWith 0
      ∧ CliAction.refuse "必须传入参数pidfile或者config或者url之一"
          ≠ CliAction.exitWith 0 := by
  decide

/-- C10: with TLS configured and no SNI domain, connecting uses the
literal `soft.wm-proxy.com` as server name; and when the configured or
default name is not a valid DNS name (and the TCP dial preceding the check
succeeded), `inner_connect` returns the `invalid dnsname` InvalidInput
error, establishing neither a plaintext nor a TLS tunnel. -/
theorem tls_sni_default_and_invalid_dns (validDns : String → Bool)
    (tcp tls : Except String Unit) (d : Option String) :
    inner_connect true none validDns tcp tls
        = inner_connect true (some default_tls_domain) validDns tcp tls
  ∧ (tcp = Except.ok () → validDns (d.getD default_tls_domain) = false →
      inner_connect true d validDns tcp tls
        = Except.error (ConnError.invalidInput "invalid dnsname")) := by
  constructor
  · cases tcp with
    | error e => rfl
    | ok u => rfl
  · intro htcp hv
    subst htcp
    simp [inner_connect, hv]

/-- Witness for C10: no SNI configured and a name validator rejecting
everything. -/
theorem tls_sni_default_and_invalid_dns_witness :
    (Except.ok () : Except String Unit) = Except.ok ()
      ∧ (fun _ : String => false) ((none : Option String).getD default_tls_domain)
          = false
      ∧ inner_connect true none (fun _ => false) (Except.ok ()) (Except.ok ())
          = Except.error (ConnError.invalidInput "invalid dnsname") :=
  ⟨rfl, rfl,
   (tls_sni_default_and_invalid_dns (fun _ => false) (Except.ok ())
      (Except.ok ()) none).2 rfl rfl⟩

end Wmproxy
